import Mathlib

/-!
Verification of the document-generation and in-memory document-cache core of
`ask_hr_agents` (`src/ask_hr_ai_agent_adk/doc_generator.py`).

Strings are modelled as `List Char`.  The wall clock, which the Python code
reads via `datetime.now()`, is modelled as an explicit `Clock` argument
carrying the three forms the code interpolates: the `strftime("%Y%m%d_%H%M%S")`
string, the `timestamp()` float printed by an f-string, and the integer
`int(timestamp())`.  The process-global dictionary `_document_cache` is
modelled by explicit state passing of an association list with
overwrite-on-insert semantics, matching Python `dict` assignment, `get`
and `pop`.
-/

namespace DocGen

/-- Converts a Lean string literal to the `List Char` representation used
throughout this development. -/
def str (s : String) : List Char :=
  s.toList

/-- Characters that Python `str.strip()` removes: space, tab, newline,
carriage return, vertical tab, form feed. -/
def isPySpace (c : Char) : Bool :=
  c = ' ' || c = '\t' || c = '\n' || c = '\r' || c = '\x0b' || c = '\x0c'

/-- Python `str.strip()`: drop leading and trailing whitespace. -/
def pyStrip (s : List Char) : List Char :=
  ((s.dropWhile isPySpace).reverse.dropWhile isPySpace).reverse

/-- Python `str.splitlines()` restricted to the line breaks this code can
meet (the body text uses plain newlines): splits at each newline, a
trailing newline producing no trailing empty line, and the empty string
producing the empty list. -/
def splitlines : List Char → List (List Char)
  | [] => []
  | c :: rest =>
    if c = '\n' then [] :: splitlines rest
    else
      match splitlines rest with
      | [] => [[c]]
      | l :: ls => (c :: l) :: ls

/-- Python `str.lower()` on the characters this code meets (ASCII). -/
def toLowerL (s : List Char) : List Char :=
  s.map Char.toLower

/-- The invalid Windows filename characters removed by the sanitizer
(doc_generator.py line 36). -/
def invalid_chars : List Char :=
  ['<', '>', ':', '"', '/', '\\', '|', '?', '*']

/-- The first three steps of `_sanitize_filename` (doc_generator.py lines
36-40): filter out the invalid characters, strip whitespace, and unless
`preserve_spaces` turn the remaining spaces into underscores. -/
def sanitizedCore (name : List Char) (preserve_spaces : Bool) : List Char :=
  let safe := pyStrip (name.filter (fun c => decide (c ∉ invalid_chars)))
  if preserve_spaces then safe
  else safe.map (fun c => if c = ' ' then '_' else c)

/-- `_sanitize_filename` (doc_generator.py lines 25-41): the sanitized core,
falling back to a timestamped generated name when it is empty
(`safe or f-string` on line 41, with `int(datetime.now().timestamp())`
passed in as `nowEpoch`). -/
def _sanitize_filename (name : List Char) (preserve_spaces : Bool)
    (nowEpoch : Nat) : List Char :=
  if (sanitizedCore name preserve_spaces).isEmpty then
    str "document_" ++ Nat.toDigits 10 nowEpoch
  else sanitizedCore name preserve_spaces

/-- The wall clock as sampled inside one generation call: the
`strftime` form, the printed `timestamp()` float, and `int(timestamp())`. -/
structure Clock where
  strf : List Char
  tsStr : List Char
  epoch : Nat
deriving DecidableEq

/-- The document built by `generate_docx` via python-docx: one heading and
the body paragraphs, which is all the cached binary content observably
carries for this spec. -/
structure Docx where
  heading : List Char
  paragraphs : List (List Char)
deriving DecidableEq

/-- The binary payload a cache entry holds: either a plain built document or
a template rendered against a context. -/
inductive DocBytes where
  | plain (d : Docx)
  | rendered (templateName : List Char) (context : List (List Char × List Char))
deriving DecidableEq

/-- One value of the `_document_cache` dictionary: the bytes and the
filename (doc_generator.py line 75). -/
structure CacheEntry where
  bytes : DocBytes
  filename : List Char
deriving DecidableEq

/-- The `_document_cache` dictionary, modelled as an association list. -/
abbrev Cache := List (List Char × CacheEntry)

/-- Python `dict.get`. -/
def cacheGet : Cache → List Char → Option CacheEntry
  | [], _ => none
  | (k, v) :: rest, key => if k = key then some v else cacheGet rest key

/-- Python `dict.pop(key, None)`: remove the binding of `key`, a no-op when
absent. -/
def cachePop (c : Cache) (key : List Char) : Cache :=
  c.filter (fun p => p.1 ≠ key)

/-- Python `d[key] = value`: bind `key` to `value`, replacing any previous
binding. -/
def cacheInsert (c : Cache) (key : List Char) (v : CacheEntry) : Cache :=
  (key, v) :: cachePop c key

/-- The record `generate_docx` / `generate_docx_from_template` return on
success (doc_generator.py lines 77-81, 147-151). -/
structure GenResult where
  success : Bool
  filename : List Char
  download_key : List Char
deriving DecidableEq

/-- Python `filename or default` on an `Optional[str]`: the default is used
when the argument is `None` or the empty string. -/
def orDefault (o : Option (List Char)) (d : List Char) : List Char :=
  match o with
  | none => d
  | some f => if f.isEmpty then d else f

/-- The document `generate_docx` builds (doc_generator.py lines 55-66):
title defaulted when the argument is empty then stripped; content
stripped; one paragraph per line of the stripped content, none when it is
blank. -/
def plainDoc (title content : List Char) : Docx :=
  let title1 := pyStrip (if title.isEmpty then str "Document" else title)
  let content1 := pyStrip content
  { heading := title1
    paragraphs := if content1.isEmpty then [] else splitlines content1 }

/-- The output filename both generators derive (doc_generator.py lines
58-60 and 130-132): sanitize the given filename, or the synthesized
default when it is `None` or empty, then append the extension unless the
lower-cased name already ends in it. -/
def outputBaseName (filename : Option (List Char)) (defaultName : List Char)
    (preserve_spaces : Bool) (epoch : Nat) : List Char :=
  let base0 := _sanitize_filename (orDefault filename defaultName)
    preserve_spaces epoch
  if (str ".docx").isSuffixOf (toLowerL base0) then base0
  else base0 ++ str ".docx"

/-- `generate_docx` (doc_generator.py lines 44-81): build the plain
document, derive and sanitize the output filename, normalize its
extension, and store the bytes in the cache under the key
`timestamp_filename`. -/
def generate_docx (title content : List Char) (filename : Option (List Char))
    (clk : Clock) (cache : Cache) : GenResult × Cache :=
  let title1 := pyStrip (if title.isEmpty then str "Document" else title)
  let base_name := outputBaseName filename
    (toLowerL title1 ++ '_' :: clk.strf ++ str ".docx") false clk.epoch
  let doc := plainDoc title content
  let doc_key := clk.tsStr ++ '_' :: base_name
  (⟨true, base_name, doc_key⟩,
   cacheInsert cache doc_key ⟨DocBytes.plain doc, base_name⟩)

/-- `get_document_from_cache` (doc_generator.py lines 154-159): the bytes of
the entry under the key, or `None` when absent. -/
def get_document_from_cache (cache : Cache) (doc_key : List Char) :
    Option DocBytes :=
  (cacheGet cache doc_key).map CacheEntry.bytes

/-- `get_document_filename_from_cache` (doc_generator.py lines 162-167). -/
def get_document_filename_from_cache (cache : Cache) (doc_key : List Char) :
    Option (List Char) :=
  (cacheGet cache doc_key).map CacheEntry.filename

/-- `clear_document_cache` (doc_generator.py lines 170-172):
`dict.pop(key, None)`. -/
def clear_document_cache (cache : Cache) (doc_key : List Char) : Cache :=
  cachePop cache doc_key

/-- Lexicographic order on the character lists standing for Python strings,
as used by Python `sorted`. -/
def strLt : List Char → List Char → Bool
  | [], [] => false
  | [], _ :: _ => true
  | _ :: _, [] => false
  | a :: as, b :: bs => if a < b then true else if b < a then false else strLt as bs

/-- Insert a string into a sorted list of strings. -/
def insortStr (x : List Char) : List (List Char) → List (List Char)
  | [] => [x]
  | y :: ys => if strLt x y then x :: y :: ys else y :: insortStr x ys

/-- Insertion sort on lists of strings, modelling Python `sorted`. -/
def sortStrs (l : List (List Char)) : List (List Char) :=
  l.foldr insortStr []

/-- Collapse duplicate strings, modelling the set the template variables are
collected into. -/
def dedupStrs : List (List Char) → List (List Char)
  | [] => []
  | x :: xs => x :: (dedupStrs xs).filter (fun y => y ≠ x)

/-- `sorted(list(vars_set))` (doc_generator.py line 102) and the
deduplicated, lexically sorted output the spec requires of the fallback
scan: duplicates collapsed, then sorted. -/
def sortedSet (l : List (List Char)) : List (List Char) :=
  sortStrs (dedupStrs l)

/-- A `.docx` template inside the catalog directory, as observed by this
code: its filename, the placeholder variables in the order template
rendering evaluates them, the outcome of docxtpl introspection
(`get_undeclared_template_variables`, which may raise), and the outcome of
opening the file and scanning its raw text for placeholders (which may
also raise). -/
structure Template where
  name : List Char
  varOccurrences : List (List Char)
  introspect : Except Unit (List (List Char))
  scanRaw : Except Unit (List (List Char))

/-- Errors surfaced by placeholder extraction: the template is missing
(`FileNotFoundError`, doc_generator.py line 96), or both extraction
strategies failed. -/
inductive TplError where
  | notFound
  | extractionFailure
deriving DecidableEq

/-- Errors surfaced by `generate_docx_from_template`: the docxtpl capability
is absent (`RuntimeError`, line 122), the template is missing
(`FileNotFoundError`, line 126), or strict rendering met an unbound
placeholder (jinja2 `UndefinedError` naming the variable, lines 134-136). -/
inductive RenderError where
  | engineUnavailable
  | notFound
  | missingVariable (v : List Char)
deriving DecidableEq

/-- Look a template up in the catalog directory by filename, modelling the
`tpl_path.exists()` checks. -/
def findTemplate (dir : List Template) (tname : List Char) : Option Template :=
  dir.find? (fun t => decide (t.name = tname))

/-- Modelled from the spec: `_regex_scan_placeholders` is called at
doc_generator.py line 107 but its definition is not among the source files;
per the spec it scans the template's raw text with a pattern matcher for
the placeholder syntax and returns the collected matches, deduplicated and
lexically sorted, and only its own failure (file unreadable, scan raising)
surfaces a generic extraction failure. -/
def regexFallback (tpl : Template) : Except TplError (List (List Char)) :=
  match tpl.scanRaw with
  | .ok vs => .ok (sortedSet vs)
  | .error _ => .error .extractionFailure

/-- `get_template_placeholders` (doc_generator.py lines 89-107): fail if the
template is absent; with docxtpl present try its introspection and on any
exception fall back silently to the raw-text scan; without docxtpl go to
the scan directly. -/
def get_template_placeholders (hasDocxtpl : Bool) (dir : List Template)
    (template_name : List Char) : Except TplError (List (List Char)) :=
  match findTemplate dir template_name with
  | none => .error .notFound
  | some tpl =>
    if hasDocxtpl then
      match tpl.introspect with
      | .ok vs => .ok (sortedSet vs)
      | .error _ => regexFallback tpl
    else regexFallback tpl

/-- Whether a context dictionary binds a placeholder name. -/
def ctxHas (context : List (List Char × List Char)) (v : List Char) : Bool :=
  context.any (fun p => decide (p.1 = v))

/-- Modelled: `tpl.render(context, jinja_env=env)` with
`Environment(undefined=StrictUndefined)` (doc_generator.py lines 134-136):
rendering evaluates the template's placeholders in order and stops at the
first one the context does not bind, raising an error that names it;
otherwise it produces the rendered bytes. -/
def renderStrict (tpl : Template) (context : List (List Char × List Char)) :
    Except (List Char) DocBytes :=
  match tpl.varOccurrences.find? (fun v => !ctxHas context v) with
  | some v => .error v
  | none => .ok (.rendered tpl.name context)

/-- Python `Path(name).stem` for the plain filenames this code meets: the
name minus its last dot-suffix, where a leading dot does not start a
suffix. -/
def stem (tname : List Char) : List Char :=
  match tname with
  | [] => []
  | c :: rest =>
    if rest.contains '.' then
      c :: ((rest.reverse.dropWhile (fun x => x ≠ '.')).drop 1).reverse
    else tname

/-- Python `pat in s` substring containment, for the `" - "` check on
doc_generator.py line 129. -/
def containsSub (s pat : List Char) : Bool :=
  match s with
  | [] => pat.isEmpty
  | c :: rest => pat.isPrefixOf (c :: rest) || containsSub rest pat

/-- `generate_docx_from_template` (doc_generator.py lines 110-151): fail
fast when docxtpl is absent or the template is missing; derive the output
filename (preserving spaces when the given filename contains `" - "`);
render strictly; and only on success store the rendered bytes in the cache
under the key `timestamp_filename`.  The second component is the cache
state when the call returns or raises. -/
def generate_docx_from_template (hasDocxtpl : Bool) (dir : List Template)
    (template_name : List Char) (context : List (List Char × List Char))
    (filename : Option (List Char)) (clk : Clock) (cache : Cache) :
    Except RenderError GenResult × Cache :=
  if !hasDocxtpl then (.error .engineUnavailable, cache)
  else
    match findTemplate dir template_name with
    | none => (.error .notFound, cache)
    | some tpl =>
      let preserve_spaces :=
        match filename with
        | some f => containsSub f (str " - ")
        | none => false
      let base_name := outputBaseName filename
        (str "render_" ++ stem template_name ++ '_' :: clk.strf ++ str ".docx")
        preserve_spaces clk.epoch
      match renderStrict tpl context with
      | .error v => (.error (.missingVariable v), cache)
      | .ok rendered =>
        let doc_key := clk.tsStr ++ '_' :: base_name
        (.ok ⟨true, base_name, doc_key⟩,
         cacheInsert cache doc_key ⟨rendered, base_name⟩)

/-- A fixed clock sample used for concrete evaluations. -/
def clk0 : Clock :=
  ⟨str "20250101_000000", str "100.0", 100⟩

/-- A second clock sample within the same second as `clk0` but with a
different printed timestamp. -/
def clkB : Clock :=
  ⟨str "20250101_000000", str "100.1", 100⟩

/-- A fixed cache entry used for concrete evaluations. -/
def e0 : CacheEntry :=
  ⟨DocBytes.plain ⟨[], []⟩, str "a.docx"⟩

/-- A concrete healthy template requiring the placeholder `name`. -/
def tpl0 : Template :=
  ⟨str "t.docx", [str "name"], .ok [str "name"], .ok [str "name"]⟩

/-- A concrete template whose docxtpl introspection raises but whose raw
text scan succeeds. -/
def tplF : Template :=
  ⟨str "bad.docx", [], .error (), .ok [str "b", str "a"]⟩

/-- Looking a key up after removing it from the cache finds nothing. -/
theorem cacheGet_cachePop_self (c : Cache) (k : List Char) :
    cacheGet (cachePop c k) k = none := by
  induction c with
  | nil => rfl
  | cons p rest ih =>
    obtain ⟨a, v⟩ := p
    by_cases h : a = k
    · simpa [cachePop, List.filter_cons, h] using ih
    · simpa [cachePop, List.filter_cons, h, cacheGet] using ih

/-- Removing one key from the cache leaves lookups of any other key
unchanged. -/
theorem cacheGet_cachePop_ne (c : Cache) (k k2 : List Char) (h : k2 ≠ k) :
    cacheGet (cachePop c k) k2 = cacheGet c k2 := by
  induction c with
  | nil => rfl
  | cons p rest ih =>
    obtain ⟨a, v⟩ := p
    by_cases ha : a = k
    · have hak2 : ¬a = k2 := fun e => h (e.symm.trans ha)
      rw [show cachePop ((a, v) :: rest) k = cachePop rest k by
        simp [cachePop, List.filter_cons, ha]]
      rw [ih]
      simp [cacheGet, hak2]
    · rw [show cachePop ((a, v) :: rest) k = (a, v) :: cachePop rest k by
        simp [cachePop, List.filter_cons, ha]]
      by_cases ha2 : a = k2
      · simp [cacheGet, ha2]
      · simp [cacheGet, ha2, ih]

/-- Looking up the key just inserted yields the inserted entry. -/
theorem cacheGet_cacheInsert_self (c : Cache) (k : List Char) (v : CacheEntry) :
    cacheGet (cacheInsert c k v) k = some v := by
  simp [cacheInsert, cacheGet]

/-- Inserting under one key leaves lookups of any other key unchanged. -/
theorem cacheGet_cacheInsert_ne (c : Cache) (k k2 : List Char)
    (v : CacheEntry) (h : k2 ≠ k) :
    cacheGet (cacheInsert c k v) k2 = cacheGet c k2 := by
  have : k ≠ k2 := fun e => h e.symm
  simp [cacheInsert, cacheGet, this, cacheGet_cachePop_ne c k k2 h]

/-- Removing a key that is absent from the cache changes nothing. -/
theorem cachePop_absent (c : Cache) (k : List Char)
    (h : cacheGet c k = none) : cachePop c k = c := by
  induction c with
  | nil => rfl
  | cons p rest ih =>
    obtain ⟨a, v⟩ := p
    by_cases ha : a = k
    · exfalso
      rw [show cacheGet ((a, v) :: rest) k = some v by simp [cacheGet, ha]] at h
      exact Option.noConfusion h
    · have hrest : cacheGet rest k = none := by
        rw [show cacheGet ((a, v) :: rest) k = cacheGet rest k by
          simp [cacheGet, ha]] at h
        exact h
      rw [show cachePop ((a, v) :: rest) k = (a, v) :: cachePop rest k by
        simp [cachePop, List.filter_cons, ha]]
      rw [ih hrest]

/-- Removing the same key twice equals removing it once. -/
theorem cachePop_idem (c : Cache) (k : List Char) :
    cachePop (cachePop c k) k = cachePop c k :=
  cachePop_absent _ _ (cacheGet_cachePop_self c k)

/-- A member of a list on which the predicate is false survives
`dropWhile`. -/
theorem mem_dropWhile_of_not (p : Char → Bool) (l : List Char) (c : Char)
    (hc : c ∈ l) (hp : p c = false) : c ∈ l.dropWhile p := by
  induction l with
  | nil => cases hc
  | cons a rest ih =>
    by_cases ha : p a = true
    · rw [List.dropWhile_cons_of_pos ha]
      rcases List.mem_cons.1 hc with h | h
      · subst h; rw [hp] at ha; cases ha
      · exact ih h
    · rw [List.dropWhile_cons_of_neg ha]
      exact hc

/-- Every member of `dropWhile p l` is a member of `l`. -/
theorem mem_of_mem_dropWhile (p : Char → Bool) (l : List Char) (c : Char)
    (hc : c ∈ l.dropWhile p) : c ∈ l := by
  induction l with
  | nil => simp at hc
  | cons a rest ih =>
    by_cases ha : p a = true
    · rw [List.dropWhile_cons_of_pos ha] at hc
      exact List.mem_cons_of_mem a (ih hc)
    · rwa [List.dropWhile_cons_of_neg ha] at hc

/-- A non-whitespace member of the string survives Python `strip`. -/
theorem mem_pyStrip (s : List Char) (c : Char) (hc : c ∈ s)
    (hns : isPySpace c = false) : c ∈ pyStrip s := by
  unfold pyStrip
  rw [List.mem_reverse]
  exact mem_dropWhile_of_not _ _ _
    (by rw [List.mem_reverse]; exact mem_dropWhile_of_not _ _ _ hc hns) hns

/-- Every member of the stripped string is a member of the string. -/
theorem mem_of_mem_pyStrip (s : List Char) (c : Char)
    (hc : c ∈ pyStrip s) : c ∈ s := by
  unfold pyStrip at hc
  rw [List.mem_reverse] at hc
  have := mem_of_mem_dropWhile _ _ _ hc
  rw [List.mem_reverse] at this
  exact mem_of_mem_dropWhile _ _ _ this

/-- After a `generate_docx` call, the cache holds the plain document under
the returned download key. -/
theorem get_after_generate_docx (title content : List Char)
    (filename : Option (List Char)) (clk : Clock) (cache : Cache) :
    get_document_from_cache (generate_docx title content filename clk cache).2
      (generate_docx title content filename clk cache).1.download_key
      = some (DocBytes.plain (plainDoc title content)) := by
  simp [generate_docx, get_document_from_cache, cacheGet_cacheInsert_self]

/-- C1: inserting a document into the cache (as performed at the end of
`generate_docx`) and then calling `get_document_from_cache` with the
returned key returns exactly the stored bytes; after
`clear_document_cache` on that key the same lookup returns `none`, which
is distinguishable from a stored empty document. -/
theorem C1_put_get_evict (title content : List Char)
    (filename : Option (List Char)) (clk : Clock) (cache : Cache) :
    get_document_from_cache (generate_docx title content filename clk cache).2
      (generate_docx title content filename clk cache).1.download_key
      = some (DocBytes.plain (plainDoc title content)) ∧
    get_document_from_cache
      (clear_document_cache (generate_docx title content filename clk cache).2
        (generate_docx title content filename clk cache).1.download_key)
      (generate_docx title content filename clk cache).1.download_key = none ∧
    (some (DocBytes.plain ⟨[], []⟩) : Option DocBytes) ≠ none := by
  refine ⟨get_after_generate_docx title content filename clk cache, ?_, by simp⟩
  simp [get_document_from_cache, clear_document_cache, cacheGet_cachePop_self]

/-- C6: `_sanitize_filename` never returns the empty string: when the
sanitized core is empty it falls back to a timestamped generated name. -/
theorem C6_sanitize_nonempty (name : List Char) (preserve_spaces : Bool)
    (nowEpoch : Nat) :
    _sanitize_filename name preserve_spaces nowEpoch ≠ [] := by
  unfold _sanitize_filename
  by_cases hc : (sanitizedCore name preserve_spaces).isEmpty
  · rw [if_pos hc]
    intro h
    exact absurd (List.append_eq_nil.1 h).1 (by decide)
  · rw [if_neg hc]
    intro h
    exact hc (by rw [h]; rfl)

/-- C9: `clear_document_cache` is idempotent: evicting an absent key is a
no-op that raises no error, eviction leaves every other key's entry
unchanged, and evicting the same key twice equals evicting it once. -/
theorem C9_evict_idempotent (cache : Cache) (k : List Char) :
    (get_document_from_cache cache k = none →
      clear_document_cache cache k = cache) ∧
    (∀ k2, k2 ≠ k →
      get_document_from_cache (clear_document_cache cache k) k2
        = get_document_from_cache cache k2) ∧
    clear_document_cache (clear_document_cache cache k) k
      = clear_document_cache cache k := by
  refine ⟨?_, ?_, cachePop_idem cache k⟩
  · intro h
    exact cachePop_absent cache k (Option.map_eq_none'.1 h)
  · intro k2 h2
    unfold get_document_from_cache clear_document_cache
    rw [cacheGet_cachePop_ne cache k k2 h2]

/-- No element of the sanitized core is an invalid character. -/
theorem sanitizedCore_no_invalid (name : List Char) (ps : Bool) :
    ∀ c ∈ sanitizedCore name ps, c ∉ invalid_chars := by
  intro c hc
  simp only [sanitizedCore] at hc
  by_cases hps : ps
  · rw [if_pos hps] at hc
    exact of_decide_eq_true (List.mem_filter.1 (mem_of_mem_pyStrip _ _ hc)).2
  · rw [if_neg hps] at hc
    obtain ⟨b, hb, hfb⟩ := List.mem_map.1 hc
    have hbleg : b ∉ invalid_chars :=
      of_decide_eq_true (List.mem_filter.1 (mem_of_mem_pyStrip _ _ hb)).2
    by_cases hbsp : b = ' '
    · rw [← hfb, if_pos hbsp]; decide
    · rw [← hfb, if_neg hbsp]; exact hbleg

/-- A legal non-whitespace character of the input survives the sanitized
core. -/
theorem mem_sanitizedCore (name : List Char) (ps : Bool) (c : Char)
    (hmem : c ∈ name) (hleg : c ∉ invalid_chars)
    (hns : isPySpace c = false) : c ∈ sanitizedCore name ps := by
  have hF : c ∈ name.filter (fun x => decide (x ∉ invalid_chars)) :=
    List.mem_filter.2 ⟨hmem, decide_eq_true hleg⟩
  have hS : c ∈ pyStrip (name.filter (fun x => decide (x ∉ invalid_chars))) :=
    mem_pyStrip _ _ hF hns
  simp only [sanitizedCore]
  by_cases hps : ps
  · rw [if_pos hps]; exact hS
  · rw [if_neg hps]
    have hcs : ¬c = ' ' := by
      intro e; rw [e] at hns; exact absurd hns (by decide)
    exact List.mem_map.2 ⟨c, hS, by rw [if_neg hcs]⟩

/-- C3 counterexample: the content `"\nline1"` has two lines, but the
document `generate_docx` stores for it has exactly one paragraph — the
leading blank line is dropped by the initial `strip`. -/
theorem C3_counterexample :
    (splitlines (str "\nline1")).length = 2 ∧
    get_document_from_cache
        (generate_docx (str "T") (str "\nline1") none clk0 []).2
        (generate_docx (str "T") (str "\nline1") none clk0 []).1.download_key
      = some (DocBytes.plain ⟨str "T", [str "line1"]⟩) ∧
    [str "line1"].length ≠ (splitlines (str "\nline1")).length := by
  refine ⟨by decide, by decide, by decide⟩

/-- C3 amended: the stored document has one paragraph per line of the
content after trimming leading and trailing whitespace, in order with
interior blank lines kept; in particular `"line1\nline2"` under title
`"My Title"` yields exactly the two paragraphs `"line1"` then
`"line2"`. -/
theorem C3_paragraphs_per_trimmed_line (title content : List Char)
    (filename : Option (List Char)) (clk : Clock) (cache : Cache) :
    get_document_from_cache (generate_docx title content filename clk cache).2
      (generate_docx title content filename clk cache).1.download_key
      = some (DocBytes.plain (plainDoc title content)) ∧
    (plainDoc title content).paragraphs = splitlines (pyStrip content) ∧
    plainDoc (str "My Title") (str "line1\nline2")
      = ⟨str "My Title", [str "line1", str "line2"]⟩ := by
  refine ⟨get_after_generate_docx title content filename clk cache, ?_, by decide⟩
  by_cases h : (pyStrip content).isEmpty
  · have he : pyStrip content = [] := by
      cases e : pyStrip content
      · rfl
      · rw [e] at h; exact absurd h (by simp)
    simp [plainDoc, he, splitlines]
  · simp [plainDoc, h]

/-- C4 counterexample: the whitespace-only title `" "` is blank after
trimming, yet `generate_docx` stores a document whose heading is the empty
string, not `"Document"` — the default applies only before stripping. -/
theorem C4_counterexample :
    pyStrip (str " ") = [] ∧
    (plainDoc (str " ") (str "")).heading = [] ∧
    (plainDoc (str " ") (str "")).heading ≠ str "Document" ∧
    (generate_docx (str " ") (str "") none clk0 []).1.success = true ∧
    get_document_from_cache (generate_docx (str " ") (str "") none clk0 []).2
        (generate_docx (str " ") (str "") none clk0 []).1.download_key
      = some (DocBytes.plain ⟨[], []⟩) := by
  refine ⟨by decide, by decide, by decide, by decide, by decide⟩

/-- C4 amended: the heading defaults to `"Document"` when the title
argument is empty or absent (a whitespace-only title instead yields an
empty heading); with empty title and empty content the call succeeds and
the stored document is heading `"Document"` with zero paragraphs. -/
theorem C4_default_title (content : List Char) (filename : Option (List Char))
    (clk : Clock) (cache : Cache) :
    (generate_docx [] content filename clk cache).1.success = true ∧
    (plainDoc [] content).heading = str "Document" ∧
    plainDoc [] [] = ⟨str "Document", []⟩ ∧
    get_document_from_cache (generate_docx [] content filename clk cache).2
      (generate_docx [] content filename clk cache).1.download_key
      = some (DocBytes.plain (plainDoc [] content)) := by
  refine ⟨rfl, ?_, by decide, get_after_generate_docx [] content filename clk cache⟩
  show pyStrip (if ([] : List Char).isEmpty then str "Document" else [])
      = str "Document"
  decide

/-- C7 counterexample: `"a b"` contains the legal character `' '`, yet the
sanitized result `"a_b"` does not preserve it — interior spaces are
rewritten to underscores. -/
theorem C7_counterexample :
    (' ' ∈ str "a b" ∧ ' ' ∉ invalid_chars) ∧
    ' ' ∉ _sanitize_filename (str "a b") false 0 ∧
    _sanitize_filename (str "a b") false 0 = str "a_b" := by
  refine ⟨by decide, by decide, by decide⟩

/-- C7 amended: for every input containing at least one legal
non-whitespace character, `_sanitize_filename` removes every occurrence of
each invalid character and preserves every legal non-whitespace character
of the input (leading and trailing whitespace is trimmed and, unless
`preserve_spaces`, interior spaces become underscores). -/
theorem C7_sanitize_preserves (name : List Char) (preserve_spaces : Bool)
    (nowEpoch : Nat) (c0 : Char) (h0 : c0 ∈ name) (h0leg : c0 ∉ invalid_chars)
    (h0ns : isPySpace c0 = false) :
    (∀ c ∈ _sanitize_filename name preserve_spaces nowEpoch,
      c ∉ invalid_chars) ∧
    (∀ c ∈ name, c ∉ invalid_chars → isPySpace c = false →
      c ∈ _sanitize_filename name preserve_spaces nowEpoch) := by
  have hcore : c0 ∈ sanitizedCore name preserve_spaces :=
    mem_sanitizedCore name preserve_spaces c0 h0 h0leg h0ns
  have hne : (sanitizedCore name preserve_spaces).isEmpty = false := by
    cases e : sanitizedCore name preserve_spaces
    · rw [e] at hcore; cases hcore
    · rfl
  have hsan : _sanitize_filename name preserve_spaces nowEpoch
      = sanitizedCore name preserve_spaces := by
    unfold _sanitize_filename
    rw [hne]
    rfl
  constructor
  · rw [hsan]; exact sanitizedCore_no_invalid name preserve_spaces
  · intro c hc hleg hns
    rw [hsan]
    exact mem_sanitizedCore name preserve_spaces c hc hleg hns

/-- C7 witness: the legal character `'a'` of `"ab"` is preserved by the
sanitizer. -/
theorem C7_sanitize_preserves_witness :
    'a' ∈ _sanitize_filename (str "ab") false 0 :=
  (C7_sanitize_preserves (str "ab") false 0 'a' (by decide) (by decide)
    (by decide)).2 'a' (by decide) (by decide) (by decide)

/-- C9 witness: evicting the absent key `"b"` from a one-entry cache is a
no-op, and the entry under `"a"` is untouched. -/
theorem C9_evict_idempotent_witness :
    clear_document_cache [(str "a", e0)] (str "b") = [(str "a", e0)] ∧
    get_document_from_cache
        (clear_document_cache [(str "a", e0)] (str "b")) (str "a")
      = get_document_from_cache [(str "a", e0)] (str "a") := by
  constructor
  · exact (C9_evict_idempotent [(str "a", e0)] (str "b")).1 (by rfl)
  · exact (C9_evict_idempotent [(str "a", e0)] (str "b")).2.1 (str "a")
      (by decide)

/-- C2: for an existing template, when the primary docxtpl introspection
fails or the engine is absent, `get_template_placeholders` silently falls
back to the raw-text scan and returns its collected matches; only when the
scan also fails does the call surface a generic extraction failure. -/
theorem C2_placeholder_fallback (hasDocxtpl : Bool) (dir : List Template)
    (tname : List Char) (tpl : Template)
    (hfind : findTemplate dir tname = some tpl)
    (hfail : hasDocxtpl = false ∨ tpl.introspect = .error ()) :
    (∀ vs, tpl.scanRaw = .ok vs →
      get_template_placeholders hasDocxtpl dir tname = .ok (sortedSet vs)) ∧
    (tpl.scanRaw = .error () →
      get_template_placeholders hasDocxtpl dir tname
        = .error .extractionFailure) := by
  have hred : get_template_placeholders hasDocxtpl dir tname
      = regexFallback tpl := by
    unfold get_template_placeholders
    rcases hfail with h | h
    · subst h
      simp only [hfind]
      rfl
    · cases hD : hasDocxtpl
      · simp only [hfind]
        rfl
      · simp only [hfind, h, if_true]
  constructor
  · intro vs hvs
    rw [hred]
    unfold regexFallback
    rw [hvs]
  · intro hscan
    rw [hred]
    unfold regexFallback
    rw [hscan]

/-- C2 witness: on a template whose introspection raises, the call returns
the sorted, deduplicated raw-scan matches. -/
theorem C2_placeholder_fallback_witness :
    get_template_placeholders true [tplF] (str "bad.docx")
      = .ok [str "a", str "b"] := by
  have h := (C2_placeholder_fallback true [tplF] (str "bad.docx") tplF rfl
    (Or.inr rfl)).1 [str "b", str "a"] rfl
  rw [h]
  rfl

/-- C5: with the templating engine present and the template found, if the
context is missing any placeholder the rendering evaluates, the call fails
with an error naming a missing placeholder rather than substituting a
value; if every placeholder is bound, the call succeeds. -/
theorem C5_strict_rendering (dir : List Template) (tname : List Char)
    (context : List (List Char × List Char)) (filename : Option (List Char))
    (clk : Clock) (cache : Cache) (tpl : Template)
    (hfind : findTemplate dir tname = some tpl) :
    ((∃ v ∈ tpl.varOccurrences, ctxHas context v = false) →
      ∃ v, (generate_docx_from_template true dir tname context filename clk
          cache).1 = .error (.missingVariable v) ∧
        v ∈ tpl.varOccurrences ∧ ctxHas context v = false) ∧
    ((∀ v ∈ tpl.varOccurrences, ctxHas context v = true) →
      ∃ r, (generate_docx_from_template true dir tname context filename clk
          cache).1 = .ok r ∧ r.success = true) := by
  constructor
  · rintro ⟨v0, hv0mem, hv0⟩
    have hfound : (tpl.varOccurrences.find? (fun v => !ctxHas context v)).isSome := by
      rw [List.find?_isSome]
      refine ⟨v0, hv0mem, ?_⟩
      show (!ctxHas context v0) = true
      rw [hv0]
      rfl
    obtain ⟨w, hw⟩ := Option.isSome_iff_exists.1 hfound
    have hwmem : w ∈ tpl.varOccurrences := List.mem_of_find?_eq_some hw
    have hwp : (!ctxHas context w) = true := by
      simpa using List.find?_some hw
    have hwph : ctxHas context w = false := by
      cases e : ctxHas context w
      · rfl
      · rw [e] at hwp; exact absurd hwp (by decide)
    refine ⟨w, ?_, hwmem, hwph⟩
    simp only [generate_docx_from_template, hfind, renderStrict, hw,
      Bool.not_true]
    rfl
  · intro hall
    have hnone : tpl.varOccurrences.find? (fun v => !ctxHas context v)
        = none := by
      rw [List.find?_eq_none]
      intro x hx
      simp [hall x hx]
    simp only [generate_docx_from_template, hfind, renderStrict, hnone,
      Bool.not_true]
    exact ⟨_, rfl, rfl⟩

/-- C5 witness: rendering the template requiring `name` with an empty
context fails naming a missing placeholder; binding `name` succeeds. -/
theorem C5_strict_rendering_witness :
    (∃ v, (generate_docx_from_template true [tpl0] (str "t.docx") [] none clk0
        []).1 = .error (.missingVariable v) ∧
      v ∈ tpl0.varOccurrences ∧ ctxHas [] v = false) ∧
    (∃ r, (generate_docx_from_template true [tpl0] (str "t.docx")
        [(str "name", str "Ann")] none clk0 []).1 = .ok r ∧
      r.success = true) :=
  ⟨(C5_strict_rendering [tpl0] (str "t.docx") [] none clk0 [] tpl0 rfl).1
      ⟨str "name", by decide, rfl⟩,
   (C5_strict_rendering [tpl0] (str "t.docx") [(str "name", str "Ann")] none
      clk0 [] tpl0 rfl).2 (by decide)⟩

/-- C8 counterexample: two insertions with identical filenames performed at
the same printed timestamp generate the same key — the claimed uniqueness
fails — and the first document, holding different bytes, is no longer
retrievable because the second insertion overwrote it. -/
theorem C8_counterexample :
    (generate_docx (str "T") (str "x") (some (str "f.docx")) clk0
        []).1.download_key
      = (generate_docx (str "U") (str "y") (some (str "f.docx")) clk0
          (generate_docx (str "T") (str "x") (some (str "f.docx")) clk0
            []).2).1.download_key ∧
    get_document_from_cache
        (generate_docx (str "U") (str "y") (some (str "f.docx")) clk0
          (generate_docx (str "T") (str "x") (some (str "f.docx")) clk0
            []).2).2
        (generate_docx (str "T") (str "x") (some (str "f.docx")) clk0
          []).1.download_key
      = some (DocBytes.plain (plainDoc (str "U") (str "y"))) ∧
    DocBytes.plain (plainDoc (str "T") (str "x"))
      ≠ DocBytes.plain (plainDoc (str "U") (str "y")) := by
  refine ⟨by decide, by decide, by decide⟩

/-- C8 amended: two insertions with the same explicit filename whose
sanitized core is non-empty (so the base name never depends on the
sanitizer's timestamped fallback) generate distinct keys whenever the two
calls' printed timestamps differ, and both entries remain independently
retrievable afterwards. -/
theorem C8_distinct_keys (t1 c1 t2 c2 f : List Char) (clk1 clk2 : Clock)
    (cache : Cache) (hf : (sanitizedCore f false).isEmpty = false)
    (hts : clk1.tsStr ≠ clk2.tsStr) :
    (generate_docx t1 c1 (some f) clk1 cache).1.download_key
      ≠ (generate_docx t2 c2 (some f) clk2
          (generate_docx t1 c1 (some f) clk1 cache).2).1.download_key ∧
    get_document_from_cache
        (generate_docx t2 c2 (some f) clk2
          (generate_docx t1 c1 (some f) clk1 cache).2).2
        (generate_docx t1 c1 (some f) clk1 cache).1.download_key
      = some (DocBytes.plain (plainDoc t1 c1)) ∧
    get_document_from_cache
        (generate_docx t2 c2 (some f) clk2
          (generate_docx t1 c1 (some f) clk1 cache).2).2
        (generate_docx t2 c2 (some f) clk2
          (generate_docx t1 c1 (some f) clk1 cache).2).1.download_key
      = some (DocBytes.plain (plainDoc t2 c2)) := by
  have hfe : f.isEmpty = false := by
    cases f with
    | nil => exact absurd hf (by decide)
    | cons a as => rfl
  have hsan : ∀ ep : Nat, _sanitize_filename f false ep
      = sanitizedCore f false := by
    intro ep
    unfold _sanitize_filename
    rw [hf]
    rfl
  have hBB : outputBaseName (some f)
      (toLowerL (pyStrip (if t1.isEmpty then str "Document" else t1))
        ++ '_' :: clk1.strf ++ str ".docx") false clk1.epoch
      = outputBaseName (some f)
      (toLowerL (pyStrip (if t2.isEmpty then str "Document" else t2))
        ++ '_' :: clk2.strf ++ str ".docx") false clk2.epoch := by
    simp only [outputBaseName, orDefault, hfe, Bool.false_eq_true, if_false,
      hsan clk1.epoch, hsan clk2.epoch]
  have hne : (generate_docx t1 c1 (some f) clk1 cache).1.download_key
      ≠ (generate_docx t2 c2 (some f) clk2
          (generate_docx t1 c1 (some f) clk1 cache).2).1.download_key := by
    intro h
    rw [show (generate_docx t1 c1 (some f) clk1 cache).1.download_key
        = clk1.tsStr ++ '_' :: outputBaseName (some f)
            (toLowerL (pyStrip (if t1.isEmpty then str "Document" else t1))
              ++ '_' :: clk1.strf ++ str ".docx") false clk1.epoch
        from rfl] at h
    rw [show (generate_docx t2 c2 (some f) clk2
          (generate_docx t1 c1 (some f) clk1 cache).2).1.download_key
        = clk2.tsStr ++ '_' :: outputBaseName (some f)
            (toLowerL (pyStrip (if t2.isEmpty then str "Document" else t2))
              ++ '_' :: clk2.strf ++ str ".docx") false clk2.epoch
        from rfl] at h
    rw [hBB] at h
    exact hts (List.append_cancel_right h)
  refine ⟨hne, ?_, get_after_generate_docx t2 c2 (some f) clk2 _⟩
  have hstep : (generate_docx t2 c2 (some f) clk2
      (generate_docx t1 c1 (some f) clk1 cache).2).2
    = cacheInsert (generate_docx t1 c1 (some f) clk1 cache).2
        (generate_docx t2 c2 (some f) clk2
          (generate_docx t1 c1 (some f) clk1 cache).2).1.download_key
        ⟨DocBytes.plain (plainDoc t2 c2),
         (generate_docx t2 c2 (some f) clk2
           (generate_docx t1 c1 (some f) clk1 cache).2).1.filename⟩ := rfl
  unfold get_document_from_cache
  rw [hstep, cacheGet_cacheInsert_ne _ _ _ _ hne]
  exact get_after_generate_docx t1 c1 (some f) clk1 cache

/-- C8 witness: two puts of `"f.docx"` whose printed timestamps differ get
distinct keys. -/
theorem C8_distinct_keys_witness :
    (generate_docx (str "T") (str "x") (some (str "f.docx")) clk0
        []).1.download_key
      ≠ (generate_docx (str "U") (str "y") (some (str "f.docx")) clkB
          (generate_docx (str "T") (str "x") (some (str "f.docx")) clk0
            []).2).1.download_key :=
  (C8_distinct_keys (str "T") (str "x") (str "U") (str "y") (str "f.docx")
    clk0 clkB [] (by decide) (by decide)).1

/-- C10: whenever `generate_docx_from_template` fails — engine unavailable,
template not found, or rendering raising — the document cache is left
unchanged; insertion happens only after rendering completes. -/
theorem C10_error_leaves_cache (hasDocxtpl : Bool) (dir : List Template)
    (tname : List Char) (context : List (List Char × List Char))
    (filename : Option (List Char)) (clk : Clock) (cache : Cache)
    (e : RenderError)
    (h : (generate_docx_from_template hasDocxtpl dir tname context filename
        clk cache).1 = .error e) :
    (generate_docx_from_template hasDocxtpl dir tname context filename clk
        cache).2 = cache := by
  unfold generate_docx_from_template at h ⊢
  cases hD : hasDocxtpl with
  | false => rfl
  | true =>
    cases hFind : findTemplate dir tname with
    | none =>
      simp only [hFind]
      rfl
    | some tpl =>
      rw [hD] at h
      simp only [hFind] at h ⊢
      cases hR : renderStrict tpl context with
      | error v =>
        simp only [hR]
        rfl
      | ok rendered =>
        simp only [hR, Bool.not_true] at h
        simp at h

/-- C10 witness: with the templating engine absent the call fails and the
cache is exactly what it was. -/
theorem C10_error_leaves_cache_witness :
    (generate_docx_from_template false [] (str "t.docx") [] none clk0
        [(str "a", e0)]).2 = [(str "a", e0)] :=
  C10_error_leaves_cache false [] (str "t.docx") [] none clk0
    [(str "a", e0)] .engineUnavailable rfl

end DocGen
